import Mathlib

/-!
Verification of the triptips-backend matching engine (src/matcher.py, src/app.py)
against its natural-language specification.

The Python code is shallowly embedded: dictionaries of user and destination
fields become structures with Option fields where the code distinguishes
absence, Python float scores become exact rationals, Python set() over lists
or dict keys becomes Finset String, and any field access that can raise
KeyError makes the embedded function Option-valued (none = the exception).
-/

namespace TripTips

/-- A user preference record as read by matcher.py via user_prefs.get(...):
environment, style and activities default to the empty list when absent, so
absence and the empty list are behaviorally identical and are stored as plain
lists; budget_range and climate and name have non-trivial defaults or None
checks, so absence is kept as Option.none. -/
structure UserPrefs where
  name : Option String := none
  environment : List String := []
  style : List String := []
  activities : List String := []
  budget_range : Option (ℚ × ℚ) := none
  climate : Option String := none
deriving DecidableEq, Repr

/-- A style or tags field of a destination record: the legacy catalog schema
stores a flat list of tags, the rich schema a map from score-dimension name to
a numeric score. Python set(...) over the map iterates its keys. -/
inductive TagsField where
  | flat (tags : List String)
  | scores (dims : List (String × ℚ))
deriving DecidableEq, Repr

/-- An activities field of a destination record: flat list of tags, or a map
from category name to a list of tags in the rich schema. -/
inductive ActsField where
  | flat (tags : List String)
  | byCategory (cats : List (String × List String))
deriving DecidableEq, Repr

/-- A destination record (region or city). Fields the code reads via .get with
default [] or 0 are stored directly with that default; budget_range is read by
direct indexing region["budget_range"], so a missing field raises KeyError and
is kept as Option.none. The continent, tags and budget_ranges fields occur in
the rich catalog schema; matcher.py never reads them (they appear here so that
spec-side definitions and the worked example can be stated on real records). -/
structure Dest where
  id : String := ""
  name : String := ""
  country : String := ""
  continent : Option String := none
  tags : Option (List String) := none
  region_tags : List String := []
  environment : List String := []
  style : TagsField := .flat []
  activities : ActsField := .flat []
  budget_range : Option (ℚ × ℚ) := none
  budget_ranges : List (String × (ℚ × ℚ)) := []
  climate : Option String := none
  nightlife_score : ℚ := 0
  family_friendly : ℚ := 0
  culture_score : ℚ := 0
  region_id : Option String := none
  best_for : Option String := none
deriving DecidableEq, Repr

/-- Python set(x) for a style field: keys when the field is a score map. -/
def TagsField.pySet : TagsField → Finset String
  | .flat tags => tags.toFinset
  | .scores dims => (dims.map Prod.fst).toFinset

/-- Python set(x) for an activities field: keys when it is a category map. -/
def ActsField.pySet : ActsField → Finset String
  | .flat tags => tags.toFinset
  | .byCategory cats => (cats.map Prod.fst).toFinset

/-- Per-user result dictionary built inside the scoring loops of matcher.py
(match_reasons and mismatch_reasons are display-only strings whose contents
depend on Python set iteration order, which is not a function of the input;
they are omitted from the embedding and no claim mentions them). -/
structure UserScore where
  user_index : ℕ
  user_name : String
  score : ℚ
  max_possible : ℚ
  match_percentage : ℚ
  sentiment : String
deriving DecidableEq, Repr

/-- The score_details dictionary returned by _score_region and _score_city.
The consensus, pros, cons and best_for entries are display-only; the only way
they can affect control flow is the unguarded region["budget_range"] access in
_generate_pros and _generate_cons, which is covered by the top-level
budget_range match of the embedded scorer. -/
structure RegionDetails where
  total_score : ℚ
  max_possible_score : ℚ
  match_percentage : ℚ
  user_breakdown : List UserScore
deriving DecidableEq, Repr

/-- One element of the list returned by calculate_region_match and
calculate_city_match. -/
structure ScoredRegion where
  region : Dest
  score : ℚ
  match_percentage : ℚ
  details : RegionDetails
  user_breakdown : List UserScore
deriving DecidableEq, Repr

/-- matcher.py _get_user_weights: weights are identically 1.0 for now. -/
def getUserWeights (users_preferences : List UserPrefs) (_trip_type : String) : List ℚ :=
  List.replicate users_preferences.length 1

/-- matcher.py _get_sentiment. -/
def getSentiment (match_pct : ℚ) : String :=
  if match_pct ≥ 85 then "Perfect for"
  else if match_pct ≥ 70 then "Great for"
  else if match_pct ≥ 55 then "Good for"
  else "Compromise for"

/-- The trip_type test at matcher.py line 166:
trip_type in ["family_with_kids", "family_without_kids"]. -/
def isFamilyTrip (trip_type : String) : Bool :=
  trip_type == "family_with_kids" || trip_type == "family_without_kids"

/-- Climate contribution of _score_region step 5: the Python test is
"if user_climate and user_climate == region_climate", where a missing key or
empty string is falsy. Returns the 2-point bonus factor (before the weight). -/
def climateBonus : Option String → Option String → ℚ
  | some uc, some rc => if uc ≠ "" ∧ uc = rc then 2 else 0
  | _, _ => 0

/-- The guarded percentage formula used at matcher.py lines 182, 199, 432
and 448: score over max times 100, or 0 when the maximum is not positive. -/
def pctOf (score maxp : ℚ) : ℚ :=
  if maxp > 0 then score / maxp * 100 else 0

/-- One iteration of the per-user loop of _score_region (matcher.py lines
85-193), for a region whose budget_range is present with value rbr.
The running user_score and user_max sums are written as one sum of paired
criterion contributions. -/
def scoreUserCore (region : Dest) (rbr : ℚ × ℚ) (trip_type : String)
    (i : ℕ) (user_weight : ℚ) (user_prefs : UserPrefs) : UserScore :=
  let budget_max := (user_prefs.budget_range.getD (0, 1000)).2
  let region_budget_max := rbr.2
  let s1 : ℚ := if region_budget_max > budget_max + 50 then -20 * user_weight else 0
  let m1 : ℚ := if region_budget_max > budget_max + 50 then 20 * user_weight else 0
  let user_envs := user_prefs.environment.toFinset
  let env_matches := user_envs ∩ region.environment.toFinset
  let s2 : ℚ := (env_matches.card : ℚ) * 10 * user_weight
  let m2 : ℚ := (user_envs.card : ℚ) * 10 * user_weight
  let user_styles := user_prefs.style.toFinset
  let style_matches := user_styles ∩ region.style.pySet
  let s3 : ℚ := (style_matches.card : ℚ) * 8 * user_weight
  let m3 : ℚ := (user_styles.card : ℚ) * 8 * user_weight
  let user_acts := user_prefs.activities.toFinset
  let act_matches := user_acts ∩ region.activities.pySet
  let s4 : ℚ := (act_matches.card : ℚ) * 3 * user_weight
  let m4 : ℚ := (user_acts.card : ℚ) * 3 * user_weight
  let s5 : ℚ := climateBonus user_prefs.climate region.climate * user_weight
  let m5 : ℚ := 2 * user_weight
  let s6 : ℚ := if "party" ∈ user_prefs.style ∧ region.nightlife_score ≥ 4
    then 3 * user_weight else 0
  let m6 : ℚ := if "party" ∈ user_prefs.style then 5 * user_weight else 0
  let s7 : ℚ := if isFamilyTrip trip_type = true ∧ region.family_friendly ≥ 4
    then 3 * user_weight else 0
  let m7 : ℚ := if isFamilyTrip trip_type = true then 5 * user_weight else 0
  let s8 : ℚ := if "cultural" ∈ user_prefs.style ∧ region.culture_score ≥ 4
    then 3 * user_weight else 0
  let m8 : ℚ := if "cultural" ∈ user_prefs.style then 5 * user_weight else 0
  let user_score := s1 + s2 + s3 + s4 + s5 + s6 + s7 + s8
  let user_max := m1 + m2 + m3 + m4 + m5 + m6 + m7 + m8
  { user_index := i
    user_name := user_prefs.name.getD ("User " ++ toString (i + 1))
    score := user_score
    max_possible := user_max
    match_percentage := pctOf user_score user_max
    sentiment := getSentiment (pctOf user_score user_max) }

/-- The enumerate loop of _score_region: user index i paired with the weight
drawn from the weights list (zipped, since both lists have equal length). -/
def scoreUsersLoop (region : Dest) (rbr : ℚ × ℚ) (trip_type : String) :
    ℕ → List (UserPrefs × ℚ) → List UserScore
  | _, [] => []
  | i, (u, w) :: rest =>
      scoreUserCore region rbr trip_type i w u :: scoreUsersLoop region rbr trip_type (i + 1) rest

/-- matcher.py _score_region. Returns none exactly when the region record has
no budget_range key: with a nonempty group the per-user loop raises KeyError at
its first iteration (line 94), and with an empty group _generate_pros raises at
line 277; every other field access in the function carries a default. -/
def scoreRegionDetails (region : Dest) (users_preferences : List UserPrefs)
    (trip_type : String) : Option RegionDetails :=
  match region.budget_range with
  | none => none
  | some rbr =>
    let weights := getUserWeights users_preferences trip_type
    let user_scores := scoreUsersLoop region rbr trip_type 0 (users_preferences.zip weights)
    let total_score := (user_scores.map (fun u => u.score)).sum
    let max_possible_score := (user_scores.map (fun u => u.max_possible)).sum
    some { total_score := total_score
           max_possible_score := max_possible_score
           match_percentage := pctOf total_score max_possible_score
           user_breakdown := user_scores }

/-- The geographic scope filter of calculate_region_match (lines 48-51):
geographic_scope in r.get("region_tags", []) or geographic_scope == "Anywhere". -/
def scopeMatches (geographic_scope : String) (r : Dest) : Bool :=
  decide (geographic_scope ∈ r.region_tags) || decide (geographic_scope = "Anywhere")

/-- The result dictionary appended for each region (lines 57-63). -/
def mkEntry (region : Dest) (d : RegionDetails) : ScoredRegion :=
  { region := region
    score := d.total_score
    match_percentage := d.match_percentage
    details := d
    user_breakdown := d.user_breakdown }

/-- The scoring for-loop of calculate_region_match (lines 53-63), with
exception propagation: the first region whose scoring raises aborts the call. -/
def scoreRegionsLoop (users_preferences : List UserPrefs) (trip_type : String) :
    List Dest → Option (List ScoredRegion)
  | [] => some []
  | region :: rest =>
    match scoreRegionDetails region users_preferences trip_type with
    | none => none
    | some d => (scoreRegionsLoop users_preferences trip_type rest).map
        (fun tail => mkEntry region d :: tail)

/-- Stable insertion placing x after every element with a strictly greater key
and before all others: the insertion step of a stable descending sort. -/
def insertDesc {α : Type} (key : α → ℚ) (x : α) : List α → List α
  | [] => [x]
  | y :: ys => if key y ≤ key x then x :: y :: ys else y :: insertDesc key x ys

/-- Stable descending sort, modelling Python list.sort(key=..., reverse=True):
descending by key, and elements with equal keys keep their original order. -/
def sortDesc {α : Type} (key : α → ℚ) : List α → List α
  | [] => []
  | x :: xs => insertDesc key x (sortDesc key xs)

/-- The list of scored eligible regions built by calculate_region_match before
sorting and truncation. -/
def scoredOf (regions : List Dest) (users_preferences : List UserPrefs)
    (geographic_scope : String) (trip_type : String) : Option (List ScoredRegion) :=
  scoreRegionsLoop users_preferences trip_type
    (regions.filter (fun r => scopeMatches geographic_scope r))

/-- matcher.py calculate_region_match: filter by scope, score, sort by score
descending (stable), return the top 7. The self.regions catalog is passed
explicitly as the regions argument. -/
def calculate_region_match (regions : List Dest) (users_preferences : List UserPrefs)
    (geographic_scope : String) (trip_type : String) : Option (List ScoredRegion) :=
  (scoredOf regions users_preferences geographic_scope trip_type).map
    (fun scored => (sortDesc (fun e => e.score) scored).take 7)

/-- One iteration of the per-user loop of _score_city (matcher.py lines
374-443), for a city whose budget_range is present with value cbr. Compared
with the region loop it keeps the budget veto, environment, style and
activities terms and the party-nightlife bonus, and has no climate, family or
culture term. -/
def scoreCityUserCore (city : Dest) (cbr : ℚ × ℚ) (_trip_type : String)
    (i : ℕ) (user_weight : ℚ) (user_prefs : UserPrefs) : UserScore :=
  let budget_max := (user_prefs.budget_range.getD (0, 1000)).2
  let city_budget_max := cbr.2
  let s1 : ℚ := if city_budget_max > budget_max + 50 then -20 * user_weight else 0
  let m1 : ℚ := if city_budget_max > budget_max + 50 then 20 * user_weight else 0
  let user_envs := user_prefs.environment.toFinset
  let env_matches := user_envs ∩ city.environment.toFinset
  let s2 : ℚ := (env_matches.card : ℚ) * 10 * user_weight
  let m2 : ℚ := (user_envs.card : ℚ) * 10 * user_weight
  let user_styles := user_prefs.style.toFinset
  let style_matches := user_styles ∩ city.style.pySet
  let s3 : ℚ := (style_matches.card : ℚ) * 8 * user_weight
  let m3 : ℚ := (user_styles.card : ℚ) * 8 * user_weight
  let user_acts := user_prefs.activities.toFinset
  let act_matches := user_acts ∩ city.activities.pySet
  let s4 : ℚ := (act_matches.card : ℚ) * 3 * user_weight
  let m4 : ℚ := (user_acts.card : ℚ) * 3 * user_weight
  let s5 : ℚ := if "party" ∈ user_prefs.style ∧ city.nightlife_score ≥ 4
    then 3 * user_weight else 0
  let m5 : ℚ := if "party" ∈ user_prefs.style then 5 * user_weight else 0
  let user_score := s1 + s2 + s3 + s4 + s5
  let user_max := m1 + m2 + m3 + m4 + m5
  { user_index := i
    user_name := user_prefs.name.getD ("User " ++ toString (i + 1))
    score := user_score
    max_possible := user_max
    match_percentage := pctOf user_score user_max
    sentiment := getSentiment (pctOf user_score user_max) }

/-- The enumerate loop of _score_city. -/
def scoreCityUsersLoop (city : Dest) (cbr : ℚ × ℚ) (trip_type : String) :
    ℕ → List (UserPrefs × ℚ) → List UserScore
  | _, [] => []
  | i, (u, w) :: rest =>
      scoreCityUserCore city cbr trip_type i w u ::
        scoreCityUsersLoop city cbr trip_type (i + 1) rest

/-- matcher.py _score_city. Returns none exactly when the city record has no
budget_range key (direct access at line 383, and again in _generate_city_pros
line 470 and _generate_city_cons line 488). -/
def scoreCityDetails (city : Dest) (users_preferences : List UserPrefs)
    (trip_type : String) : Option RegionDetails :=
  match city.budget_range with
  | none => none
  | some cbr =>
    let weights := getUserWeights users_preferences trip_type
    let user_scores := scoreCityUsersLoop city cbr trip_type 0 (users_preferences.zip weights)
    let total_score := (user_scores.map (fun u => u.score)).sum
    let max_possible_score := (user_scores.map (fun u => u.max_possible)).sum
    some { total_score := total_score
           max_possible_score := max_possible_score
           match_percentage := pctOf total_score max_possible_score
           user_breakdown := user_scores }

/-- The scoring for-loop of calculate_city_match (lines 347-356). -/
def scoreCitiesLoop (users_preferences : List UserPrefs) (trip_type : String) :
    List Dest → Option (List ScoredRegion)
  | [] => some []
  | city :: rest =>
    match scoreCityDetails city users_preferences trip_type with
    | none => none
    | some d => (scoreCitiesLoop users_preferences trip_type rest).map
        (fun tail => mkEntry city d :: tail)

/-- matcher.py calculate_city_match: filter the cities catalog by region_id
(c.get("region_id") == region_id), score, sort descending, return the top 5. -/
def calculate_city_match (cities : List Dest) (region_id : String)
    (users_preferences : List UserPrefs) (trip_type : String) :
    Option (List ScoredRegion) :=
  (scoreCitiesLoop users_preferences trip_type
      (cities.filter (fun c => c.region_id == some region_id))).map
    (fun scored => (sortDesc (fun e => e.score) scored).take 5)

/-- A catalog source for the loader, as parsed by json.load: unparseable bytes
(json.JSONDecodeError), a bare array of records, or an object wrapping the
array under its collection key ("regions" or "cities"), the two shapes
accepted by the module-level init body at matcher.py lines 12-26. -/
inductive Source (α : Type) where
  | unparseable
  | bareArray (records : List α)
  | wrapped (records : List α)
deriving DecidableEq

/-- The body of the (dedented, module-level) init function of matcher.py for
one of its two files: json.load, then unwrap the collection key when the data
is an object containing it, else use the data directly as the array. Returns
none on unparseable input (json.JSONDecodeError propagates). -/
def loadCollection {α : Type} : Source α → Option (List α)
  | .unparseable => none
  | .bareArray records => some records
  | .wrapped records => some records

/-- Python construction semantics for TravelMatcher: the def of init at
matcher.py line 10 is dedented to column 0, so the class body (lines 5-8)
contains only a docstring and binds no init; all the method defs at lines
28-498 are indented under that module-level function and are never bound to
the class either. Calling TravelMatcher(...) therefore uses the default
object constructor, which raises TypeError whenever any argument is passed. -/
def constructTravelMatcher {α : Type} (args : List (Source α)) :
    Except String (List α × List α) :=
  if args.isEmpty then Except.ok ([], [])
  else Except.error "TypeError: TravelMatcher() takes no arguments"

/-- Character-wise lowercasing of a string. Spec-side helper for the
Geographic Scope Resolver of spec section 4.2. -/
def specLower (s : String) : String :=
  String.mk (s.data.map Char.toLower)

/-- Normalization of a tag or scope string stated by spec section 4.2:
lowercase and replace spaces with hyphens, applied character-wise. Spec-side
definition, for comparison with the scope filter actually implemented in
scopeMatches. -/
def specNormTag (s : String) : String :=
  String.mk (s.data.map (fun c => if c = ' ' then '-' else c.toLower))

/-- Spec section 4.2 step 2: resolve the scope through the ContinentMap, with
the string-normalization fallback. Spec-side definition. -/
def specResolveScope (cmap : List (String × String)) (scope : String) : String :=
  match List.lookup scope cmap with
  | some i => i
  | none => specNormTag scope

/-- The Geographic Scope Resolver as the spec (section 4.2) and claim C6
describe it, stated from the words of the spec for comparison with
scopeMatches: Anywhere matches unconditionally; else match on the lowercased
continent code equalling the resolved id, or on the resolved id or lowercased
raw scope appearing in the normalized tag set drawn from tags, with
environment as fallback. -/
def specScopeMatches (cmap : List (String × String)) (scope : String) (r : Dest) : Bool :=
  if scope == "Anywhere" then true
  else
    let sid := specResolveScope cmap scope
    let tagSet := (r.tags.getD r.environment).map specNormTag
    (specLower (r.continent.getD "") == sid) ||
      tagSet.contains sid || tagSet.contains (specLower scope)

/-! General lemmas about the stable descending sort. -/

section SortLemmas

variable {α : Type} (key : α → ℚ)

theorem mem_insertDesc (x a : α) (l : List α) :
    a ∈ insertDesc key x l ↔ a = x ∨ a ∈ l := by
  induction l with
  | nil => simp [insertDesc]
  | cons y ys ih =>
    by_cases h : key y ≤ key x
    · simp only [insertDesc, if_pos h, List.mem_cons]
    · simp only [insertDesc, if_neg h, List.mem_cons, ih]
      tauto

theorem length_insertDesc (x : α) (l : List α) :
    (insertDesc key x l).length = l.length + 1 := by
  induction l with
  | nil => rfl
  | cons y ys ih =>
    by_cases h : key y ≤ key x
    · simp [insertDesc, if_pos h]
    · simp [insertDesc, if_neg h, ih]

theorem pairwise_insertDesc (x : α) (l : List α)
    (hl : l.Pairwise (fun a b => key b ≤ key a)) :
    (insertDesc key x l).Pairwise (fun a b => key b ≤ key a) := by
  induction l with
  | nil => simp [insertDesc]
  | cons y ys ih =>
    rw [List.pairwise_cons] at hl
    obtain ⟨hy, hys⟩ := hl
    by_cases h : key y ≤ key x
    · simp only [insertDesc, if_pos h]
      refine List.Pairwise.cons ?_ (List.Pairwise.cons hy hys)
      intro b hb
      rcases List.mem_cons.mp hb with rfl | hb
      · exact h
      · exact le_trans (hy b hb) h
    · simp only [insertDesc, if_neg h]
      refine List.Pairwise.cons ?_ (ih hys)
      intro b hb
      rcases (mem_insertDesc key x b ys).mp hb with rfl | hb
      · exact le_of_not_le h
      · exact hy b hb

theorem pairwise_sortDesc (l : List α) :
    (sortDesc key l).Pairwise (fun a b => key b ≤ key a) := by
  induction l with
  | nil => simp [sortDesc]
  | cons x xs ih => exact pairwise_insertDesc key x (sortDesc key xs) ih

theorem length_sortDesc (l : List α) : (sortDesc key l).length = l.length := by
  induction l with
  | nil => rfl
  | cons x xs ih => simp [sortDesc, length_insertDesc, ih]

theorem mem_sortDesc (a : α) (l : List α) : a ∈ sortDesc key l ↔ a ∈ l := by
  induction l with
  | nil => simp [sortDesc]
  | cons x xs ih =>
    simp only [sortDesc, mem_insertDesc, List.mem_cons, ih]

theorem filter_insertDesc (q : ℚ) (x : α) (l : List α) :
    (insertDesc key x l).filter (fun e => decide (key e = q)) =
      if key x = q then x :: l.filter (fun e => decide (key e = q))
      else l.filter (fun e => decide (key e = q)) := by
  induction l with
  | nil =>
    by_cases hq : key x = q
    · simp [insertDesc, List.filter, hq]
    · simp [insertDesc, List.filter, hq]
  | cons y ys ih =>
    by_cases h : key y ≤ key x
    · rw [show insertDesc key x (y :: ys) = x :: y :: ys from by
        simp [insertDesc, if_pos h]]
      by_cases hq : key x = q <;> by_cases hyq : key y = q <;>
        simp [List.filter_cons, hq, hyq]
    · rw [show insertDesc key x (y :: ys) = y :: insertDesc key x ys from by
        simp [insertDesc, if_neg h]]
      by_cases hq : key x = q
      · have hyq : ¬ key y = q := fun hy => h (le_of_eq (hy.trans hq.symm))
        simp [List.filter_cons, hq, hyq, ih]
      · by_cases hyq : key y = q <;> simp [List.filter_cons, hq, hyq, ih]

theorem filter_sortDesc (q : ℚ) (l : List α) :
    (sortDesc key l).filter (fun e => decide (key e = q)) =
      l.filter (fun e => decide (key e = q)) := by
  induction l with
  | nil => rfl
  | cons x xs ih =>
    by_cases hq : key x = q
    · simp [sortDesc, filter_insertDesc, hq, List.filter_cons, ih]
    · simp [sortDesc, filter_insertDesc, hq, List.filter_cons, ih]

end SortLemmas

/-! General lemmas about the scoring loops. -/

theorem scoreRegionsLoop_map_region (users : List UserPrefs) (trip : String)
    (l : List Dest) (s : List ScoredRegion)
    (h : scoreRegionsLoop users trip l = some s) :
    s.map (fun e => e.region) = l := by
  induction l generalizing s with
  | nil =>
    simp only [scoreRegionsLoop, Option.some.injEq] at h
    simp [← h]
  | cons r rest ih =>
    simp only [scoreRegionsLoop] at h
    cases hd : scoreRegionDetails r users trip with
    | none => rw [hd] at h; exact absurd h (by simp)
    | some d =>
      rw [hd] at h
      cases hrest : scoreRegionsLoop users trip rest with
      | none => rw [hrest] at h; exact absurd h (by simp)
      | some tail =>
        rw [hrest] at h
        simp only [Option.map_some', Option.some.injEq] at h
        subst h
        simp [mkEntry, ih tail hrest]

theorem scoreRegionsLoop_mem (users : List UserPrefs) (trip : String)
    (l : List Dest) (s : List ScoredRegion) (e : ScoredRegion)
    (h : scoreRegionsLoop users trip l = some s) (he : e ∈ s) :
    ∃ r ∈ l, ∃ d, scoreRegionDetails r users trip = some d ∧ e = mkEntry r d := by
  induction l generalizing s with
  | nil =>
    simp only [scoreRegionsLoop, Option.some.injEq] at h
    rw [← h] at he
    exact absurd he (by simp)
  | cons r rest ih =>
    simp only [scoreRegionsLoop] at h
    cases hd : scoreRegionDetails r users trip with
    | none => rw [hd] at h; exact absurd h (by simp)
    | some d =>
      rw [hd] at h
      cases hrest : scoreRegionsLoop users trip rest with
      | none => rw [hrest] at h; exact absurd h (by simp)
      | some tail =>
        rw [hrest] at h
        simp only [Option.map_some', Option.some.injEq] at h
        subst h
        rcases List.mem_cons.mp he with rfl | he
        · exact ⟨r, by simp, d, hd, rfl⟩
        · obtain ⟨r', hr', d', hd', he'⟩ := ih tail hrest he
          exact ⟨r', by simp [hr'], d', hd', he'⟩

theorem scoreUsersLoop_mem (region : Dest) (rbr : ℚ × ℚ) (trip : String)
    (i : ℕ) (pairs : List (UserPrefs × ℚ)) (ub : UserScore)
    (h : ub ∈ scoreUsersLoop region rbr trip i pairs) :
    ∃ j u w, (u, w) ∈ pairs ∧ ub = scoreUserCore region rbr trip j w u := by
  induction pairs generalizing i with
  | nil => exact absurd h (by simp [scoreUsersLoop])
  | cons p rest ih =>
    obtain ⟨u, w⟩ := p
    rcases List.mem_cons.mp h with rfl | hmem
    · exact ⟨i, u, w, by simp, rfl⟩
    · obtain ⟨j, u', w', hp, hub⟩ := ih (i + 1) hmem
      exact ⟨j, u', w', by simp [hp], hub⟩

/-! Unfolding equations for the per-user score record, holding by definitional
reduction of scoreUserCore. -/

theorem scoreUserCore_score (region : Dest) (rbr : ℚ × ℚ) (trip : String)
    (i : ℕ) (w : ℚ) (u : UserPrefs) :
    (scoreUserCore region rbr trip i w u).score =
      (if rbr.2 > (u.budget_range.getD (0, 1000)).2 + 50 then -20 * w else 0) +
      ((u.environment.toFinset ∩ region.environment.toFinset).card : ℚ) * 10 * w +
      ((u.style.toFinset ∩ region.style.pySet).card : ℚ) * 8 * w +
      ((u.activities.toFinset ∩ region.activities.pySet).card : ℚ) * 3 * w +
      climateBonus u.climate region.climate * w +
      (if "party" ∈ u.style ∧ region.nightlife_score ≥ 4 then 3 * w else 0) +
      (if isFamilyTrip trip = true ∧ region.family_friendly ≥ 4 then 3 * w else 0) +
      (if "cultural" ∈ u.style ∧ region.culture_score ≥ 4 then 3 * w else 0) := rfl

theorem scoreUserCore_max (region : Dest) (rbr : ℚ × ℚ) (trip : String)
    (i : ℕ) (w : ℚ) (u : UserPrefs) :
    (scoreUserCore region rbr trip i w u).max_possible =
      (if rbr.2 > (u.budget_range.getD (0, 1000)).2 + 50 then 20 * w else 0) +
      (u.environment.toFinset.card : ℚ) * 10 * w +
      (u.style.toFinset.card : ℚ) * 8 * w +
      (u.activities.toFinset.card : ℚ) * 3 * w +
      2 * w +
      (if "party" ∈ u.style then 5 * w else 0) +
      (if isFamilyTrip trip = true then 5 * w else 0) +
      (if "cultural" ∈ u.style then 5 * w else 0) := rfl

theorem scoreUserCore_pct (region : Dest) (rbr : ℚ × ℚ) (trip : String)
    (i : ℕ) (w : ℚ) (u : UserPrefs) :
    (scoreUserCore region rbr trip i w u).match_percentage =
      pctOf (scoreUserCore region rbr trip i w u).score
        (scoreUserCore region rbr trip i w u).max_possible := rfl

theorem climateBonus_nonneg (uc rc : Option String) : 0 ≤ climateBonus uc rc := by
  cases uc <;> cases rc <;> (simp only [climateBonus]; (try split_ifs) <;> norm_num)

theorem climateBonus_le_two (uc rc : Option String) : climateBonus uc rc ≤ 2 := by
  cases uc <;> cases rc <;> (simp only [climateBonus]; (try split_ifs) <;> norm_num)

/-- At the weight 1.0 that _get_user_weights always produces, each per-user
score is bounded by the per-user maximum: every criterion contributes at most
its own contribution to the maximum. -/
theorem scoreUserCore_score_le_max (region : Dest) (rbr : ℚ × ℚ) (trip : String)
    (i : ℕ) (u : UserPrefs) :
    (scoreUserCore region rbr trip i 1 u).score ≤
      (scoreUserCore region rbr trip i 1 u).max_possible := by
  rw [scoreUserCore_score, scoreUserCore_max]
  have hce : ((u.environment.toFinset ∩ region.environment.toFinset).card : ℚ) ≤
      (u.environment.toFinset.card : ℚ) := by
    exact_mod_cast Finset.card_le_card Finset.inter_subset_left
  have hcs : ((u.style.toFinset ∩ region.style.pySet).card : ℚ) ≤
      (u.style.toFinset.card : ℚ) := by
    exact_mod_cast Finset.card_le_card Finset.inter_subset_left
  have hca : ((u.activities.toFinset ∩ region.activities.pySet).card : ℚ) ≤
      (u.activities.toFinset.card : ℚ) := by
    exact_mod_cast Finset.card_le_card Finset.inter_subset_left
  have hclim := climateBonus_le_two u.climate region.climate
  have h1 : (if rbr.2 > (u.budget_range.getD (0, 1000)).2 + 50 then (-20 : ℚ) * 1 else 0) ≤
      (if rbr.2 > (u.budget_range.getD (0, 1000)).2 + 50 then (20 : ℚ) * 1 else 0) := by
    split_ifs <;> norm_num
  have h6 : (if "party" ∈ u.style ∧ region.nightlife_score ≥ 4 then (3 : ℚ) * 1 else 0) ≤
      (if "party" ∈ u.style then (5 : ℚ) * 1 else 0) := by
    split_ifs with ha hb
    · norm_num
    · exact absurd ha.1 hb
    · norm_num
    · norm_num
  have h7 : (if isFamilyTrip trip = true ∧ region.family_friendly ≥ 4 then (3 : ℚ) * 1 else 0) ≤
      (if isFamilyTrip trip = true then (5 : ℚ) * 1 else 0) := by
    split_ifs with ha hb
    · norm_num
    · exact absurd ha.1 hb
    · norm_num
    · norm_num
  have h8 : (if "cultural" ∈ u.style ∧ region.culture_score ≥ 4 then (3 : ℚ) * 1 else 0) ≤
      (if "cultural" ∈ u.style then (5 : ℚ) * 1 else 0) := by
    split_ifs with ha hb
    · norm_num
    · exact absurd ha.1 hb
    · norm_num
    · norm_num
  linarith

theorem pctOf_le_100 (s m : ℚ) (h : s ≤ m) : pctOf s m ≤ 100 := by
  unfold pctOf
  split_ifs with hm
  · rw [div_mul_eq_mul_div, div_le_iff₀ hm]
    linarith
  · norm_num

/-! The trip_type argument reaches the scoring only through isFamilyTrip. -/

theorem scoreUserCore_trip_congr (region : Dest) (rbr : ℚ × ℚ) (t1 t2 : String)
    (i : ℕ) (w : ℚ) (u : UserPrefs) (h : isFamilyTrip t1 = isFamilyTrip t2) :
    scoreUserCore region rbr t1 i w u = scoreUserCore region rbr t2 i w u := by
  unfold scoreUserCore
  rw [h]

theorem scoreUsersLoop_trip_congr (region : Dest) (rbr : ℚ × ℚ) (t1 t2 : String)
    (h : isFamilyTrip t1 = isFamilyTrip t2) (i : ℕ) (pairs : List (UserPrefs × ℚ)) :
    scoreUsersLoop region rbr t1 i pairs = scoreUsersLoop region rbr t2 i pairs := by
  induction pairs generalizing i with
  | nil => rfl
  | cons p rest ih =>
    obtain ⟨u, w⟩ := p
    simp only [scoreUsersLoop]
    rw [scoreUserCore_trip_congr region rbr t1 t2 i w u h, ih (i + 1)]

theorem scoreRegionDetails_trip_congr (region : Dest) (users : List UserPrefs)
    (t1 t2 : String) (h : isFamilyTrip t1 = isFamilyTrip t2) :
    scoreRegionDetails region users t1 = scoreRegionDetails region users t2 := by
  cases hb : region.budget_range with
  | none => simp [scoreRegionDetails, hb]
  | some rbr =>
    simp only [scoreRegionDetails, hb, getUserWeights]
    rw [scoreUsersLoop_trip_congr region rbr t1 t2 h 0]

theorem scoreRegionsLoop_trip_congr (users : List UserPrefs) (t1 t2 : String)
    (h : isFamilyTrip t1 = isFamilyTrip t2) (l : List Dest) :
    scoreRegionsLoop users t1 l = scoreRegionsLoop users t2 l := by
  induction l with
  | nil => rfl
  | cons r rest ih =>
    simp only [scoreRegionsLoop]
    rw [scoreRegionDetails_trip_congr r users t1 t2 h, ih]

/-- Unfolding equation for the per-user city score, holding by definitional
reduction of scoreCityUserCore. -/
theorem scoreCityUserCore_score (city : Dest) (cbr : ℚ × ℚ) (trip : String)
    (i : ℕ) (w : ℚ) (u : UserPrefs) :
    (scoreCityUserCore city cbr trip i w u).score =
      (if cbr.2 > (u.budget_range.getD (0, 1000)).2 + 50 then -20 * w else 0) +
      ((u.environment.toFinset ∩ city.environment.toFinset).card : ℚ) * 10 * w +
      ((u.style.toFinset ∩ city.style.pySet).card : ℚ) * 8 * w +
      ((u.activities.toFinset ∩ city.activities.pySet).card : ℚ) * 3 * w +
      (if "party" ∈ u.style ∧ city.nightlife_score ≥ 4 then 3 * w else 0) := rfl

/-- Scoring a region against the empty group: the per-user loop runs zero
times, both sums are 0, and the zero-maximum guard yields 0 instead of
dividing by zero. -/
theorem scoreRegionDetails_nil (region : Dest) (rbr : ℚ × ℚ) (trip : String)
    (hb : region.budget_range = some rbr) :
    scoreRegionDetails region [] trip =
      some { total_score := 0, max_possible_score := 0,
             match_percentage := 0, user_breakdown := [] } := by
  simp [scoreRegionDetails, hb, getUserWeights, scoreUsersLoop, pctOf]

/-! Concrete records used by counterexamples and witnesses. -/

/-- A user record with every field absent (all defaults apply). -/
def userEmpty : UserPrefs := {}

/-- A minimal legacy-schema region: only budget_range present. -/
def regionBasic : Dest := { budget_range := some (0, 10) }

/-- A user whose budget tops out at 10 dollars per day. -/
def userVeto : UserPrefs := { budget_range := some (0, 10) }

/-- A region whose budget maximum 100 exceeds userVeto's maximum plus the 50
dollar flexibility, triggering the budget veto. -/
def regionVeto : Dest := { budget_range := some (0, 100) }

/-- The user of the spec's worked example in section 8. -/
def userExample : UserPrefs :=
  { environment := ["beach"], style := ["romantic"], activities := ["diving"],
    budget_range := some (50, 150) }

/-- The rich-schema region of the spec's worked example in section 8: style is
a score map, activities a category map, and the budget is tiered under
budget_ranges, with no flat budget_range key. -/
def regionExample : Dest :=
  { environment := ["beach", "mountain"],
    style := .scores [("romantic_score", 90)],
    activities := .byCategory [("water", ["diving"])],
    budget_ranges := [("moderate", (95, 175))] }

/-- A user scoring 23 points against regionTie. -/
def userTie : UserPrefs :=
  { name := some "A", environment := ["beach"], style := ["romantic"],
    activities := ["hiking"], climate := some "temperate" }

/-- A region scoring 23 points against userTie (environment 10, style 8,
activities 3, climate 2); replicated to build catalogs of tied regions. -/
def regionTie : Dest :=
  { environment := ["beach"], style := .flat ["romantic"],
    activities := .flat ["hiking"], budget_range := some (0, 10),
    climate := some "temperate" }

/-- A region whose family_friendly score enables the family-trip bonus. -/
def regionFamily : Dest := { budget_range := some (0, 10), family_friendly := 5 }

/-- A region carrying only a continent code, as the rich schema does. -/
def regionEurope : Dest := { continent := some "europe" }

/-- A city far above userVeto's budget. -/
def cityPricey : Dest := { budget_range := some (200, 300), region_id := some "r1" }

/-- A user with one style tag. -/
def userStyle : UserPrefs := { style := ["romantic"] }

/-- A city sharing userStyle's style tag, with overlapping budget. -/
def cityStyle : Dest := { budget_range := some (0, 100), style := .flat ["romantic"] }

/-- A region with only a budget_range, used to witness that all other field
accesses supply defaults. -/
def regionOnlyBudget : Dest := { budget_range := some (50, 150) }

/-! Claim theorems. -/

/-- Claim C1: the spec's worked example predicts a per-user raw score of 28, a
normalized 93.3 and sentiment GreatFor. On the code, scoring this rich-schema
region raises KeyError instead: _score_region reads region["budget_range"]
directly and the example region carries only tiered budget_ranges, so neither
a score nor a sentiment is produced, at the region level or through
calculate_region_match. -/
theorem C1_worked_example_raises :
    scoreRegionDetails regionExample [userExample] "friends_vacation" = none ∧
      calculate_region_match [regionExample] [userExample] "Anywhere"
        "friends_vacation" = none := by
  exact ⟨rfl, rfl⟩

/-- Claim C2, counterexample: a catalog whose only region scores 0 against the
group still appears in the output of calculate_region_match, although its
aggregate score 0 is not strictly greater than 20. The claimed inclusion gate
does not exist (matcher.py line 56: include all regions). -/
theorem C2_cex_low_score_region_returned :
    (calculate_region_match [regionBasic] [userEmpty] "Anywhere" "x").map
        (fun l => l.map (fun e => e.score)) = some [0] ∧ ¬ (20 : ℚ) < 0 := by
  constructor
  · simp +decide [calculate_region_match, scoredOf, scoreRegionsLoop,
      scoreRegionDetails, scoreUsersLoop, scoreUserCore, getUserWeights,
      getSentiment, isFamilyTrip, climateBonus, pctOf, scopeMatches, mkEntry,
      sortDesc, insertDesc, regionBasic, userEmpty, TagsField.pySet,
      ActsField.pySet]
    all_goals norm_num
  · norm_num

/-- Claim C2, amended: calculate_region_match applies no score threshold at
all. Whenever the call returns and at most 7 regions pass the geographic scope
filter, every scope-eligible region appears in the output regardless of its
aggregate score; beyond 7, regions are dropped only by the top-7 truncation,
never by a score gate. -/
theorem C2_no_inclusion_gate :
    ∀ (regions : List Dest) (users : List UserPrefs) (scope trip : String)
      (out : List ScoredRegion),
      calculate_region_match regions users scope trip = some out →
      (regions.filter (fun r => scopeMatches scope r)).length ≤ 7 →
      ∀ r ∈ regions.filter (fun r => scopeMatches scope r),
        ∃ e ∈ out, e.region = r := by
  intro regions users scope trip out hcalc hlen r hr
  unfold calculate_region_match at hcalc
  cases hs : scoredOf regions users scope trip with
  | none => rw [hs] at hcalc; exact absurd hcalc (by simp)
  | some s =>
    rw [hs] at hcalc
    simp only [Option.map_some', Option.some.injEq] at hcalc
    have hmap : s.map (fun e => e.region) =
        regions.filter (fun r => scopeMatches scope r) :=
      scoreRegionsLoop_map_region users trip _ s hs
    have hslen : s.length ≤ 7 := by
      have hlm := congrArg List.length hmap
      simp only [List.length_map] at hlm
      omega
    have htake : (sortDesc (fun e => e.score) s).take 7 =
        sortDesc (fun e => e.score) s := by
      apply List.take_of_length_le
      rw [length_sortDesc]
      exact hslen
    rw [← hmap] at hr
    obtain ⟨e, he, hre⟩ := List.mem_map.mp hr
    refine ⟨e, ?_, hre⟩
    rw [← hcalc, htake]
    exact (mem_sortDesc _ e s).mpr he

/-- The per-user record produced for userEmpty against regionBasic. -/
def ubBasic : UserScore :=
  { user_index := 0, user_name := "User 1", score := 0, max_possible := 2,
    match_percentage := 0, sentiment := "Compromise for" }

/-- The details record produced for userEmpty against regionBasic. -/
def dBasic : RegionDetails :=
  { total_score := 0, max_possible_score := 2, match_percentage := 0,
    user_breakdown := [ubBasic] }

/-- The concrete output list for the one-region one-user catalog. -/
def outBasic : List ScoredRegion := [mkEntry regionBasic dBasic]

/-- Witness for C2_no_inclusion_gate at a concrete input. -/
theorem C2_no_inclusion_gate_witness :
    calculate_region_match [regionBasic] [userEmpty] "Anywhere" "x" = some outBasic ∧
      ([regionBasic].filter (fun r => scopeMatches "Anywhere" r)).length ≤ 7 ∧
      ∃ e ∈ outBasic, e.region = regionBasic := by
  have hcalc : calculate_region_match [regionBasic] [userEmpty] "Anywhere" "x" =
      some outBasic := by
    simp +decide [calculate_region_match, scoredOf, scoreRegionsLoop,
      scoreRegionDetails, scoreUsersLoop, scoreUserCore, getUserWeights,
      getSentiment, isFamilyTrip, climateBonus, pctOf, scopeMatches, mkEntry,
      sortDesc, insertDesc, regionBasic, userEmpty, TagsField.pySet,
      ActsField.pySet, ubBasic, dBasic, outBasic]
    all_goals norm_num
  refine ⟨hcalc, by decide, ?_⟩
  refine C2_no_inclusion_gate [regionBasic] [userEmpty] "Anywhere" "x" outBasic
    hcalc (by decide) regionBasic ?_
  rw [List.mem_filter]
  exact ⟨List.mem_singleton.mpr rfl, by decide⟩

/-- Claim C3, counterexample: with 8 scope-eligible regions each scoring 23
(strictly above 20, hence qualifying in the claim's sense), the returned
sequence has 7 entries, not all qualifying regions truncated to 10. -/
theorem C3_cex_truncates_to_7_not_10 :
    (calculate_region_match (List.replicate 8 regionTie) [userTie] "Anywhere"
        "x").map List.length = some 7 ∧
      (scoreRegionDetails regionTie [userTie] "x").map (fun d => d.total_score) =
        some 23 ∧ (20 : ℚ) < 23 := by
  refine ⟨?_, ?_, by norm_num⟩
  · simp +decide [calculate_region_match, scoredOf, scoreRegionsLoop,
      scoreRegionDetails, scoreUsersLoop, scoreUserCore, getUserWeights,
      getSentiment, isFamilyTrip, climateBonus, pctOf, scopeMatches, mkEntry,
      sortDesc, insertDesc, regionTie, userTie, TagsField.pySet,
      ActsField.pySet, List.replicate]
  · simp +decide [scoreRegionDetails, scoreUsersLoop, scoreUserCore,
      getUserWeights, getSentiment, isFamilyTrip, climateBonus, pctOf,
      regionTie, userTie, TagsField.pySet, ActsField.pySet]
    all_goals norm_num

/-- Claim C3, amended: the sequence returned by calculate_region_match is all
scope-eligible regions (no score gate) sorted by aggregate score in
non-increasing order, ties keeping the original catalog order, truncated to
the top 7 entries, not 10. Sortedness is the Pairwise clause; stability is the
filter clause: at every score level the output lists an initial run of the
scored regions in their original catalog order. -/
theorem C3_sorted_stable_top7 :
    ∀ (regions : List Dest) (users : List UserPrefs) (scope trip : String)
      (s : List ScoredRegion),
      scoredOf regions users scope trip = some s →
      calculate_region_match regions users scope trip =
          some ((sortDesc (fun e => e.score) s).take 7) ∧
        ((sortDesc (fun e => e.score) s).take 7).length ≤ 7 ∧
        ((sortDesc (fun e => e.score) s).take 7).Pairwise
          (fun a b => b.score ≤ a.score) ∧
        ∀ q : ℚ, ∃ t, s.filter (fun e => decide (e.score = q)) =
          ((sortDesc (fun e => e.score) s).take 7).filter
            (fun e => decide (e.score = q)) ++ t := by
  intro regions users scope trip s hs
  refine ⟨?_, ?_, ?_, ?_⟩
  · unfold calculate_region_match
    rw [hs]
    rfl
  · rw [List.length_take]
    exact min_le_left _ _
  · exact List.Pairwise.sublist (List.take_sublist 7 _)
      (pairwise_sortDesc (fun e => e.score) s)
  · intro q
    refine ⟨((sortDesc (fun e => e.score) s).drop 7).filter
      (fun e => decide (e.score = q)), ?_⟩
    rw [← filter_sortDesc (fun e => e.score) q s, ← List.filter_append,
      List.take_append_drop]

/-- The per-user record produced for userTie against regionTie. -/
def ubTie : UserScore :=
  { user_index := 0, user_name := "A", score := 23, max_possible := 23,
    match_percentage := 100, sentiment := "Perfect for" }

/-- The details record produced for userTie against regionTie. -/
def dTie : RegionDetails :=
  { total_score := 23, max_possible_score := 23, match_percentage := 100,
    user_breakdown := [ubTie] }

/-- The concrete scored list for the 8-fold replicated tied catalog. -/
def sTie : List ScoredRegion := List.replicate 8 (mkEntry regionTie dTie)

/-- Witness for C3_sorted_stable_top7 at a concrete input. -/
theorem C3_sorted_stable_top7_witness :
    scoredOf (List.replicate 8 regionTie) [userTie] "Anywhere" "x" = some sTie ∧
      calculate_region_match (List.replicate 8 regionTie) [userTie] "Anywhere" "x" =
        some ((sortDesc (fun e => e.score) sTie).take 7) := by
  have hs : scoredOf (List.replicate 8 regionTie) [userTie] "Anywhere" "x" =
      some sTie := by
    simp +decide [scoredOf, scoreRegionsLoop, scoreRegionDetails,
      scoreUsersLoop, scoreUserCore, getUserWeights, getSentiment, isFamilyTrip,
      climateBonus, pctOf, scopeMatches, mkEntry, regionTie, userTie,
      TagsField.pySet, ActsField.pySet, ubTie, dTie, sTie, List.replicate]
    all_goals norm_num
  exact ⟨hs, (C3_sorted_stable_top7 (List.replicate 8 regionTie) [userTie]
    "Anywhere" "x" sTie hs).1⟩

/-- Claim C4, counterexample: a user whose budget maximum 10 lies more than 50
below the region budget maximum 100 takes the -20 budget veto against a
maximum of 22 (20 veto + 2 climate), giving match_percentage -1000/11, which
lies outside [0, 100]. -/
theorem C4_cex_negative_percentage :
    (scoreRegionDetails regionVeto [userVeto] "x").map
        (fun d => d.user_breakdown.map (fun u => u.match_percentage)) =
      some [-1000 / 11] ∧ (-1000 / 11 : ℚ) < 0 := by
  constructor
  · simp +decide [scoreRegionDetails, scoreUsersLoop, scoreUserCore,
      getUserWeights, getSentiment, isFamilyTrip, climateBonus, pctOf,
      regionVeto, userVeto, TagsField.pySet, ActsField.pySet]
    norm_num
  · norm_num

/-- Claim C4, amended: the per-user match_percentage never exceeds 100, since
every criterion contributes at most its own maximum; but the interval does not
extend down to 0: when the budget veto fires, the user score and the
percentage can be negative. -/
theorem C4_match_percentage_le_100 :
    ∀ (region : Dest) (users : List UserPrefs) (trip : String) (d : RegionDetails),
      scoreRegionDetails region users trip = some d →
      ∀ ub ∈ d.user_breakdown, ub.match_percentage ≤ 100 := by
  intro region users trip d hd ub hub
  cases hb : region.budget_range with
  | none => simp [scoreRegionDetails, hb] at hd
  | some rbr =>
    simp only [scoreRegionDetails, hb, Option.some.injEq] at hd
    subst hd
    have hub' : ub ∈ scoreUsersLoop region rbr trip 0
        (users.zip (getUserWeights users trip)) := hub
    obtain ⟨j, u, w, hp, hubeq⟩ := scoreUsersLoop_mem region rbr trip 0 _ ub hub'
    have hw : w = 1 := by
      have hmem := (List.of_mem_zip hp).2
      rw [getUserWeights] at hmem
      exact List.eq_of_mem_replicate hmem
    subst hw
    rw [hubeq, scoreUserCore_pct]
    exact pctOf_le_100 _ _ (scoreUserCore_score_le_max region rbr trip j u)

/-- The per-user record produced for userVeto against regionVeto. -/
def ubVeto : UserScore :=
  { user_index := 0, user_name := "User 1", score := -20, max_possible := 22,
    match_percentage := -1000 / 11, sentiment := "Compromise for" }

/-- The details record produced for userVeto against regionVeto. -/
def dVeto : RegionDetails :=
  { total_score := -20, max_possible_score := 22, match_percentage := -1000 / 11,
    user_breakdown := [ubVeto] }

/-- Witness for C4_match_percentage_le_100 at a concrete input. -/
theorem C4_match_percentage_le_100_witness :
    scoreRegionDetails regionVeto [userVeto] "x" = some dVeto ∧
      ubVeto ∈ dVeto.user_breakdown ∧ ubVeto.match_percentage ≤ 100 := by
  have hd : scoreRegionDetails regionVeto [userVeto] "x" = some dVeto := by
    simp +decide [scoreRegionDetails, scoreUsersLoop, scoreUserCore,
      getUserWeights, getSentiment, isFamilyTrip, climateBonus, pctOf,
      regionVeto, userVeto, TagsField.pySet, ActsField.pySet, ubVeto, dVeto]
    norm_num
  have hm : ubVeto ∈ dVeto.user_breakdown := by simp [dVeto]
  exact ⟨hd, hm,
    C4_match_percentage_le_100 regionVeto [userVeto] "x" dVeto hd ubVeto hm⟩

/-- Claim C5, counterexample: with an empty group and a catalog containing one
eligible region, calculate_region_match returns a one-element sequence (the
region, scored 0), not the empty sequence. -/
theorem C5_cex_empty_group_nonempty_output :
    (calculate_region_match [regionBasic] [] "Anywhere" "x").map List.length =
      some 1 := by
  simp +decide [calculate_region_match, scoredOf, scoreRegionsLoop,
    scoreRegionDetails, scoreUsersLoop, scoreUserCore, getUserWeights,
    getSentiment, isFamilyTrip, climateBonus, pctOf, scopeMatches, mkEntry,
    sortDesc, insertDesc, regionBasic, TagsField.pySet, ActsField.pySet]

/-- Claim C5, amended: with an empty group, calculate_region_match does not
raise and does not divide by zero: whenever the call returns, every returned
entry carries aggregate score 0 and match_percentage 0 (the zero-maximum
guard yields the default 0) and at most 7 entries are returned; but
scope-eligible regions are still returned rather than dropped, because no
aggregate >20 gate exists. -/
theorem C5_empty_group_zero_scores :
    ∀ (regions : List Dest) (scope trip : String) (out : List ScoredRegion),
      calculate_region_match regions [] scope trip = some out →
      out.length ≤ 7 ∧ ∀ e ∈ out, e.score = 0 ∧ e.match_percentage = 0 := by
  intro regions scope trip out hcalc
  unfold calculate_region_match at hcalc
  cases hs : scoredOf regions [] scope trip with
  | none => rw [hs] at hcalc; exact absurd hcalc (by simp)
  | some s =>
    rw [hs] at hcalc
    simp only [Option.map_some', Option.some.injEq] at hcalc
    constructor
    · rw [← hcalc, List.length_take]
      exact le_trans (min_le_left _ _) (le_refl 7)
    · intro e he
      rw [← hcalc] at he
      have hes : e ∈ s := (mem_sortDesc _ e s).mp (List.mem_of_mem_take he)
      obtain ⟨r, hr, d, hd, hed⟩ := scoreRegionsLoop_mem [] trip _ s e hs hes
      cases hb : r.budget_range with
      | none => simp [scoreRegionDetails, hb] at hd
      | some rbr =>
        rw [scoreRegionDetails_nil r rbr trip hb, Option.some.injEq] at hd
        subst hd
        rw [hed]
        exact ⟨rfl, rfl⟩

/-- The concrete output list of the empty-group call. -/
def outEmptyGroup : List ScoredRegion :=
  [mkEntry regionBasic
    { total_score := 0, max_possible_score := 0, match_percentage := 0,
      user_breakdown := [] }]

/-- Witness for C5_empty_group_zero_scores at a concrete input. -/
theorem C5_empty_group_zero_scores_witness :
    calculate_region_match [regionBasic] [] "Anywhere" "x" = some outEmptyGroup ∧
      outEmptyGroup.length ≤ 7 := by
  have hc : calculate_region_match [regionBasic] [] "Anywhere" "x" =
      some outEmptyGroup := by
    simp +decide [calculate_region_match, scoredOf, scoreRegionsLoop,
      scoreRegionDetails, scoreUsersLoop, scoreUserCore, getUserWeights,
      getSentiment, isFamilyTrip, climateBonus, pctOf, scopeMatches, mkEntry,
      sortDesc, insertDesc, regionBasic, TagsField.pySet, ActsField.pySet,
      outEmptyGroup]
  exact ⟨hc,
    (C5_empty_group_zero_scores [regionBasic] "Anywhere" "x" outEmptyGroup hc).1⟩


/-- Claim C6, counterexample: a record whose continent code already equals the
resolved id of scope Europe is, per the claim, a match; the code's scope
filter reads only region_tags and rejects it. Conversely the code filter is an
exact case-sensitive membership test on region_tags, nothing more. -/
theorem C6_cex_continent_ignored :
    specScopeMatches [] "Europe" regionEurope = true ∧
      scopeMatches "Europe" regionEurope = false := by
  exact ⟨by decide, by decide⟩

/-- Claim C6, amended: the scope filter of calculate_region_match matches
exactly when the scope is the exact string "Anywhere" (unconditional) or the
raw scope string is an element of the record's region_tags list, compared
case-sensitively and without normalization; the continent field, a
ContinentMap, and the tags/environment fallback sets are never consulted. -/
theorem C6_scope_filter_iff :
    ∀ (scope : String) (r : Dest),
      scopeMatches scope r = true ↔ (scope ∈ r.region_tags ∨ scope = "Anywhere") := by
  intro scope r
  simp [scopeMatches]

/-- Witness instance for C6_scope_filter_iff at a concrete input. -/
theorem C6_scope_filter_iff_witness :
    scopeMatches "Anywhere" regionBasic = true ↔
      ("Anywhere" ∈ regionBasic.region_tags ∨ "Anywhere" = "Anywhere") :=
  C6_scope_filter_iff "Anywhere" regionBasic

/-- Claim C7, counterexample: in city scoring, a user whose budget maximum 10
is more than 50 below the city budget maximum 300 receives -20 (the same veto
penalty as region scoring), not the claimed 0; and a shared style tag
contributes 8 points although the claim says style is not a city criterion. -/
theorem C7_cex_budget_penalty_and_style :
    (scoreCityDetails cityPricey [userVeto] "x").map
        (fun d => d.user_breakdown.map (fun u => u.score)) = some [-20] ∧
      (scoreCityDetails cityStyle [userStyle] "x").map
        (fun d => d.user_breakdown.map (fun u => u.score)) = some [8] ∧
      (-20 : ℚ) ≠ 0 := by
  refine ⟨?_, ?_, by norm_num⟩
  · simp +decide [scoreCityDetails, scoreCityUsersLoop, scoreCityUserCore,
      getUserWeights, getSentiment, pctOf, cityPricey, userVeto,
      TagsField.pySet, ActsField.pySet]
    all_goals norm_num
  · simp +decide [scoreCityDetails, scoreCityUsersLoop, scoreCityUserCore,
      getUserWeights, getSentiment, pctOf, cityStyle, userStyle,
      TagsField.pySet, ActsField.pySet]
    all_goals norm_num

/-- Claim C7, amended: city scoring uses environment (+10 per tag), style
(+8 per tag), activities (+3 per tag), the same -20 budget veto as region
scoring (fired when the city budget maximum exceeds the user maximum plus 50),
and the party-nightlife bonus; it omits only climate, family and culture.
Under the veto the per-user city score decomposes exactly as stated, with the
budget criterion contributing -20 rather than 0. -/
theorem C7_city_budget_veto_decomposition :
    ∀ (city : Dest) (cbr : ℚ × ℚ) (trip : String) (i : ℕ) (u : UserPrefs),
      cbr.2 > (u.budget_range.getD (0, 1000)).2 + 50 →
      (scoreCityUserCore city cbr trip i 1 u).score =
        -20 + ((u.environment.toFinset ∩ city.environment.toFinset).card : ℚ) * 10 +
          ((u.style.toFinset ∩ city.style.pySet).card : ℚ) * 8 +
          ((u.activities.toFinset ∩ city.activities.pySet).card : ℚ) * 3 +
          (if "party" ∈ u.style ∧ city.nightlife_score ≥ 4 then 3 else 0) := by
  intro city cbr trip i u h
  rw [scoreCityUserCore_score, if_pos h]
  split_ifs <;> ring

/-- Witness for C7_city_budget_veto_decomposition at a concrete input. -/
theorem C7_city_budget_veto_decomposition_witness :
    (200, (300 : ℚ)).2 > (userVeto.budget_range.getD (0, 1000)).2 + 50 ∧
      (scoreCityUserCore cityPricey (200, 300) "x" 0 1 userVeto).score =
        -20 + ((userVeto.environment.toFinset ∩
            cityPricey.environment.toFinset).card : ℚ) * 10 +
          ((userVeto.style.toFinset ∩ cityPricey.style.pySet).card : ℚ) * 8 +
          ((userVeto.activities.toFinset ∩ cityPricey.activities.pySet).card : ℚ) * 3 +
          (if "party" ∈ userVeto.style ∧ cityPricey.nightlife_score ≥ 4
            then 3 else 0) := by
  have h : (200, (300 : ℚ)).2 > (userVeto.budget_range.getD (0, 1000)).2 + 50 := by
    simp [userVeto]
    norm_num
  exact ⟨h, C7_city_budget_veto_decomposition cityPricey (200, 300) "x" 0 userVeto h⟩

/-- Claim C8, counterexample: a destination record with the budget_range field
absent makes _score_region raise KeyError (no result is produced), rather than
defaulting to [50, 150]; and the per-user name default is "User 1", not
"Anonymous". -/
theorem C8_cex_missing_budget_range_raises :
    scoreRegionDetails ({} : Dest) [userEmpty] "x" = none ∧
      (scoreRegionDetails regionBasic [userEmpty] "x").map
        (fun d => d.user_breakdown.map (fun u => u.user_name)) =
        some ["User 1"] := by
  constructor
  · rfl
  · simp +decide [scoreRegionDetails, scoreUsersLoop, scoreUserCore,
      getUserWeights, getSentiment, isFamilyTrip, climateBonus, pctOf,
      regionBasic, userEmpty, TagsField.pySet, ActsField.pySet]

/-- Claim C8, amended: every per-record field access other than the record's
own budget_range supplies a default (environment, style and activities default
to empty; the user budget_range defaults to [0, 1000]; score fields default to
0; the user name defaults to "User i+1"), so scoring any record that has a
budget_range never raises and produces a full result; but a record missing
budget_range raises KeyError and yields no result at all. -/
theorem C8_scoring_total_given_budget_range :
    ∀ (r : Dest) (users : List UserPrefs) (trip : String),
      r.budget_range.isSome = true →
      (scoreRegionDetails r users trip).isSome = true := by
  intro r users trip h
  cases hb : r.budget_range with
  | none => rw [hb] at h; exact absurd h (by simp)
  | some rbr => simp [scoreRegionDetails, hb]

/-- Witness for C8_scoring_total_given_budget_range at a concrete input. -/
theorem C8_scoring_total_given_budget_range_witness :
    regionOnlyBudget.budget_range.isSome = true ∧
      (scoreRegionDetails regionOnlyBudget [userEmpty] "x").isSome = true :=
  ⟨rfl, C8_scoring_total_given_budget_range regionOnlyBudget [userEmpty] "x" rfl⟩

/-- Claim C9: app.py line 19 constructs TravelMatcher("regions.json",
"cities.json", "continents.json"). Because the init def at matcher.py line 10
is dedented out of the class body, the class binds no constructor and Python
raises TypeError for this call even when every source is parseable structured
data; no LoadError discrimination ever happens. The loader body itself (the
stray module-level function) accepts both the bare-array and the wrapped
shape. -/
theorem C9_construction_always_raises :
    loadCollection (Source.bareArray ([] : List Dest)) = some [] ∧
      loadCollection (Source.wrapped ([] : List Dest)) = some [] ∧
      constructTravelMatcher [Source.bareArray ([] : List Dest),
          Source.bareArray [], Source.bareArray []] =
        Except.error "TypeError: TravelMatcher() takes no arguments" := by
  exact ⟨rfl, rfl, rfl⟩

/-- Claim C10, counterexample: with a region whose family_friendly score is 5,
trip_type "family_with_kids" yields per-user score 3 (family bonus) while
trip_type "friends_vacation" yields 0, so calculate_region_match returns
different results for two trip_type values on otherwise equal inputs. -/
theorem C10_cex_trip_type_changes_result :
    (calculate_region_match [regionFamily] [userEmpty] "Anywhere"
        "family_with_kids").map (fun l => l.map (fun e => e.score)) = some [3] ∧
      (calculate_region_match [regionFamily] [userEmpty] "Anywhere"
        "friends_vacation").map (fun l => l.map (fun e => e.score)) = some [0] ∧
      calculate_region_match [regionFamily] [userEmpty] "Anywhere"
          "family_with_kids" ≠
        calculate_region_match [regionFamily] [userEmpty] "Anywhere"
          "friends_vacation" := by
  have h1 : (calculate_region_match [regionFamily] [userEmpty] "Anywhere"
      "family_with_kids").map (fun l => l.map (fun e => e.score)) = some [3] := by
    simp +decide [calculate_region_match, scoredOf, scoreRegionsLoop,
      scoreRegionDetails, scoreUsersLoop, scoreUserCore, getUserWeights,
      getSentiment, isFamilyTrip, climateBonus, pctOf, scopeMatches, mkEntry,
      sortDesc, insertDesc, regionFamily, userEmpty, TagsField.pySet,
      ActsField.pySet]
    all_goals norm_num
  have h2 : (calculate_region_match [regionFamily] [userEmpty] "Anywhere"
      "friends_vacation").map (fun l => l.map (fun e => e.score)) = some [0] := by
    simp +decide [calculate_region_match, scoredOf, scoreRegionsLoop,
      scoreRegionDetails, scoreUsersLoop, scoreUserCore, getUserWeights,
      getSentiment, isFamilyTrip, climateBonus, pctOf, scopeMatches, mkEntry,
      sortDesc, insertDesc, regionFamily, userEmpty, TagsField.pySet,
      ActsField.pySet]
    all_goals norm_num
  refine ⟨h1, h2, fun h => ?_⟩
  rw [h] at h1
  have h3 := h1.symm.trans h2
  simp only [Option.some.injEq, List.cons.injEq] at h3
  norm_num at h3

/-- Claim C10, amended: the per-user weights are identically 1.0 regardless of
trip_type, and the scoring depends on trip_type only through the family-trip
test: any two trip_type values with the same isFamilyTrip classification give
identical calculate_region_match results; but a family trip_type enables the
family-friendly bonus, so results can differ across that boundary. -/
theorem C10_weights_one_and_family_only :
    (∀ (users : List UserPrefs) (trip : String),
        getUserWeights users trip = List.replicate users.length 1) ∧
      (∀ (regions : List Dest) (users : List UserPrefs) (scope t1 t2 : String),
        isFamilyTrip t1 = isFamilyTrip t2 →
        calculate_region_match regions users scope t1 =
          calculate_region_match regions users scope t2) := by
  constructor
  · intro users trip
    rfl
  · intro regions users scope t1 t2 h
    unfold calculate_region_match scoredOf
    rw [scoreRegionsLoop_trip_congr users t1 t2 h]

/-- Witness for C10_weights_one_and_family_only at a concrete input. -/
theorem C10_weights_one_and_family_only_witness :
    getUserWeights [userEmpty] "x" = [1] ∧
      calculate_region_match [regionFamily] [userEmpty] "Anywhere" "city_break" =
        calculate_region_match [regionFamily] [userEmpty] "Anywhere"
          "friends_vacation" :=
  ⟨C10_weights_one_and_family_only.1 [userEmpty] "x",
    C10_weights_one_and_family_only.2 [regionFamily] [userEmpty] "Anywhere"
      "city_break" "friends_vacation" (by decide)⟩

end TripTips
